import Mathlib

/-!
# Verification of the download orchestrator in `src/app/api/download/route.ts`

A shallow embedding of the progress-streaming download route of the
spotifydownloader repository. The route's `POST` handler opens a
`ReadableStream`, probes two external tools (`spotdl`, `yt-dlp`), runs at
most one of them, forwards rescaled progress events, and finishes with a
terminal `complete` or `error` event.

The embedding abstracts the outside world (which tools `which` finds, what
a spawned subprocess prints and how it exits, which files it leaves in the
temp directory, whether `readFileSync` throws) into an `Env` record; the
handler itself is translated statement-by-statement into `runPOST : Env →
Outcome`, which returns the emitted event list, the queries passed to each
external helper, and the files of the request's temp directory that still
exist when the stream-start handler returns. Subprocess output chunks are
abstracted to what the route's `parseProgress` regexes extract from them
(the captured percentage and the presence of the substring "Downloaded");
everything downstream of that extraction is translated literally.
-/

namespace SpotDL

/-- The five `stage` strings the route ever puts in an event
(`searching`, `downloading`, `converting`, `complete`, `error`). -/
inductive Stage where
  | searching
  | downloading
  | converting
  | complete
  | error
  deriving DecidableEq, Repr

/-- One server-sent event, the argument record of `sendEvent`
(route.ts:17-29): stage, progress, message, and the two optional fields
only the `complete` event carries. Progress is ℚ because yt-dlp percentages
are parsed with `parseFloat` and rescaled by `* 0.5`. -/
structure Event where
  stage : Stage
  progress : ℚ
  message : String
  downloadUrl : Option String := none
  filename : Option String := none
  deriving DecidableEq, Repr

/-- How a spawned subprocess's promise gets settled (route.ts:112-139):
its `close` event with an exit code (`none` for a signal kill), its
`error` event, or the route's own timeout timer firing first. -/
inductive ProcEnd where
  | close (code : Option Int)
  | errored
  | timeout
  deriving DecidableEq, Repr

/-- One chunk of spotdl's stdout/stderr, abstracted to what
`parseProgress` (route.ts:84-100) extracts from it: the integer captured
by the first `/(\d+)%/` match, if any, and whether the chunk contains the
substring "Downloaded". -/
structure SpotChunk where
  percent : Option Nat
  downloaded : Bool
  deriving DecidableEq, Repr

/-- One chunk of yt-dlp's output, abstracted to the number captured by the
first `/(\d+\.?\d*)%/` match (a nonnegative decimal, held as ℚ), if any
(route.ts:200-210). -/
structure YtChunk where
  percent : Option ℚ
  deriving DecidableEq, Repr

/-- The "Downloaded" branch of spotdl's `parseProgress` (route.ts:97-99):
a chunk containing "Downloaded" additionally emits progress 90. -/
def dlNote (c : SpotChunk) : List (ℚ × String) :=
  if c.downloaded then [((90 : ℚ), "Download complete, finalizing...")] else []

/-- spotdl's `parseProgress` (route.ts:84-100) on one chunk, threading
`lastProgress`: the captured percent is clamped by `Math.min(·, 100)`, and
only a strictly increasing value updates `lastProgress` and emits
`40 + progress * 0.5`. Returns the new `lastProgress` and the
`(progress, message)` pairs passed to `onProgress`, in emission order. -/
def spotParse (last : Nat) (c : SpotChunk) : Nat × List (ℚ × String) :=
  match c.percent with
  | some raw =>
      if min raw 100 > last then
        (min raw 100,
          ((40 : ℚ) + ((min raw 100 : ℕ) : ℚ) * 0.5,
            "Downloading... " ++ toString (min raw 100) ++ "%") :: dlNote c)
      else (last, dlNote c)
  | none => (last, dlNote c)

/-- All `onProgress` calls made while spotdl's chunks stream by, starting
from a given `lastProgress`. -/
def spotEmitsAux : Nat → List SpotChunk → List (ℚ × String)
  | _, [] => []
  | last, c :: cs => (spotParse last c).2 ++ spotEmitsAux (spotParse last c).1 cs

/-- All `onProgress` calls of one `downloadWithSpotDl` run
(`lastProgress` starts at 0, route.ts:81). -/
def spotEmits (chunks : List SpotChunk) : List (ℚ × String) :=
  spotEmitsAux 0 chunks

/-- yt-dlp's `parseProgress` (route.ts:200-210) on one chunk: same shape
as spotdl's but over ℚ, with the message rounding the percent. -/
def ytParse (last : ℚ) (c : YtChunk) : ℚ × List (ℚ × String) :=
  match c.percent with
  | some raw =>
      if min raw 100 > last then
        (min raw 100,
          [((40 : ℚ) + min raw 100 * 0.5,
            "Downloading audio... " ++ toString (round (min raw 100)) ++ "%")])
      else (last, [])
  | none => (last, [])

/-- All `onProgress` calls made while yt-dlp's chunks stream by. -/
def ytEmitsAux : ℚ → List YtChunk → List (ℚ × String)
  | _, [] => []
  | last, c :: cs => (ytParse last c).2 ++ ytEmitsAux (ytParse last c).1 cs

/-- All `onProgress` calls of one `downloadWithYtDlp` run
(`lastProgress` starts at 0, route.ts:198). -/
def ytEmits (chunks : List YtChunk) : List (ℚ × String) :=
  ytEmitsAux 0 chunks

/-- JS `String.prototype.endsWith` as used by the filter at route.ts:116:
the second string is a suffix of the first. -/
def jsEndsWith (s post : String) : Bool :=
  post.toList.isSuffixOf s.toList

/-- The `close` handler of `downloadWithSpotDl` (route.ts:112-129): exit
code 0 → list the output directory (`none` models `readdirSync` throwing),
keep the `.mp3` files, resolve with `join(outputDir, files[0])` when one
exists; anything else resolves `null`. -/
def spotdlCloseResult (outputDir : String) (dirFiles : Option (List String))
    (code : Option Int) : Option String :=
  if code = some 0 then
    match dirFiles with
    | some entries =>
        match entries.filter (fun f => jsEndsWith f (".mp3")) with
        | [] => none
        | f :: _ => some (outputDir ++ ("/") ++ f)
    | none => none
  else none

/-- One `downloadWithSpotDl` subprocess run: its parsed output chunks, the
directory listing its `close` handler would see, how the promise got
settled, and which files the run left in the temp directory. -/
structure SpotRun where
  chunks : List SpotChunk
  dirFiles : Option (List String)
  ended : ProcEnd
  created : List String
  deriving DecidableEq, Repr

/-- The value `downloadWithSpotDl` resolves with (route.ts:112-139): the
`close` handler's result, or `null` from the `error` handler or the
5-minute timeout. -/
def spotdlResolve (outputDir : String) (r : SpotRun) : Option String :=
  match r.ended with
  | ProcEnd.close code => spotdlCloseResult outputDir r.dirFiles code
  | ProcEnd.errored => none
  | ProcEnd.timeout => none

/-- One `searchYouTube` subprocess run: the accumulated (per-chunk
trimmed) stdout and how the promise got settled. -/
structure SearchRun where
  vid : String
  ended : ProcEnd
  deriving DecidableEq, Repr

/-- The value `searchYouTube` resolves with (route.ts:160-177): on exit
code 0 with nonempty accumulated output, its first line; else `null`. -/
def searchResolve (r : SearchRun) : Option String :=
  match r.ended with
  | ProcEnd.close code =>
      if code = some 0 ∧ r.vid ≠ "" then some ((r.vid.splitOn ("\n")).headD (""))
      else none
  | ProcEnd.errored => none
  | ProcEnd.timeout => none

/-- One `downloadWithYtDlp` subprocess run. -/
structure YtRun where
  chunks : List YtChunk
  ended : ProcEnd
  created : List String
  deriving DecidableEq, Repr

/-- The value `downloadWithYtDlp` resolves with (route.ts:215-228):
`code === 0`, and `false` from the `error` handler or the timeout. -/
def ytdlpResolve (r : YtRun) : Bool :=
  match r.ended with
  | ProcEnd.close code => code == some 0
  | ProcEnd.errored => false
  | ProcEnd.timeout => false

/-- JS `a || b` for the optional `spotifyUrl`: `undefined` and `""` fall
through to the template default (route.ts:338). -/
def jsOr (a : Option String) (b : String) : String :=
  match a with
  | some u => if u = "" then b else u
  | none => b

/-- JS truthiness of `searchYouTube`'s result as tested by
`if (!videoId)` (route.ts:417, 422): `null` and `""` are falsy. -/
def jsTruthy (r : Option String) : Option String :=
  match r with
  | some s => if s = "" then none else some s
  | none => none

/-- The code points of JS regex `\s` (the whitespace class kept by the
sanitizer's character set). -/
def jsWhitespaceCodes : List ℕ :=
  [0x9, 0xA, 0xB, 0xC, 0xD, 0x20, 0xA0, 0x1680,
   0x2000, 0x2001, 0x2002, 0x2003, 0x2004, 0x2005, 0x2006, 0x2007,
   0x2008, 0x2009, 0x200A, 0x2028, 0x2029, 0x202F, 0x205F, 0x3000, 0xFEFF]

/-- Whether a character matches JS regex `\s`. -/
def jsWhitespace (c : Char) : Bool :=
  jsWhitespaceCodes.contains c.toNat

/-- The character class `[a-zA-Z0-9\s-]` kept by the sanitizer's
`replace(/[^a-zA-Z0-9\s-]/g, "")` (route.ts:337). `Char.isAlpha` and
`Char.isDigit` are exactly ASCII `[a-zA-Z]` and `[0-9]`. -/
def isSafeChar (c : Char) : Bool :=
  c.isAlpha || c.isDigit || jsWhitespace c || c == ('-' : Char)

/-- `sanitizedTitle` (route.ts:337): the template
`` `${artist} - ${title}` ``, every character outside `[a-zA-Z0-9\s-]`
removed, truncated by `slice(0, 100)`. After the filter every remaining
character is a single UTF-16 unit, so `slice(0, 100)` is `take 100` on
characters. -/
def sanitizedTitle (artist title : String) : String :=
  List.asString (((artist ++ (" - ") ++ title).toList.filter isSafeChar).take 100)

/-- The abstracted outside world of one `POST` request: the request body
fields the handler reads, what the two `which` probes find, and the
outcome of each subprocess the handler might spawn. `mkdirOk = false`
models `mkdirSync` throwing; `spotReadOk`/`ytReadOk = false` model
`readFileSync` throwing after the exists check; `spotUnlinkOk`/
`ytUnlinkOk = false` model `unlinkSync` throwing — an error the source
catches and ignores ("Ignore cleanup errors", route.ts:387-398 and
471-481), leaving the file in place; `catchMsg` is the message of the
error the `catch` block would report. -/
structure Env where
  title : String
  artist : String
  spotifyUrl : Option String
  tempDir : String
  mkdirOk : Bool
  useSpotDl : Bool
  useYtDlp : Bool
  spot : SpotRun
  spotReadOk : Bool
  spotData : String
  spotUnlinkOk : Bool
  search1 : SearchRun
  search2 : SearchRun
  ytrun : YtRun
  ytReadOk : Bool
  ytData : String
  ytUnlinkOk : Bool
  catchMsg : String

/-- The external calls one request makes: the queries handed to
`downloadWithSpotDl`, the queries handed to `searchYouTube`, and the video
ids handed to `downloadWithYtDlp`, each in call order. -/
structure Calls where
  spotdl : List String
  search : List String
  ytdlp : List String
  deriving DecidableEq, Repr

/-- What one request leaves behind: the events written to the stream in
order, the external calls made, and the files of the request's temp
directory still on disk when the stream-start handler returns. -/
structure Outcome where
  events : List Event
  calls : Calls
  fs : List String
  deriving DecidableEq, Repr

/-- `sendEvent` call with `stage: "error", progress: 0` (the shape of
every error event the route emits). -/
def errorEvent (msg : String) : Event :=
  { stage := Stage.error, progress := 0, message := msg }

/-- route.ts:345-349. -/
def spotSearchEvent : Event :=
  { stage := Stage.searching, progress := 20, message := "Finding best audio match..." }

/-- route.ts:351-355. -/
def spotStartEvent : Event :=
  { stage := Stage.downloading, progress := 40, message := "Starting download..." }

/-- route.ts:375-379 and 459-463. -/
def convertEvent : Event :=
  { stage := Stage.converting, progress := 95, message := "Finalizing MP3 file..." }

/-- route.ts:366-370. -/
def spotFailEvent : Event :=
  errorEvent ("Failed to download audio. Please try again.")

/-- route.ts:409-413. -/
def ytSearchEvent : Event :=
  { stage := Stage.searching, progress := 20,
    message := "Searching for audio on YouTube (fallback)..." }

/-- route.ts:433-437. -/
def ytStartEvent : Event :=
  { stage := Stage.downloading, progress := 40, message := "Found track! Starting download..." }

/-- route.ts:450-454. -/
def ytFailEvent : Event :=
  errorEvent ("Failed to download audio. Install spotdl for better results: pip install spotdl")

/-- route.ts:423-427. -/
def ytNotFoundEvent : Event :=
  errorEvent ("Could not find this song. Install spotdl for better results: pip install spotdl")

/-- route.ts:492-496. -/
def noToolsEvent : Event :=
  errorEvent ("No download tools available. Please install spotdl: pip install spotdl")

/-- The terminal `complete` event (route.ts:400-406 and 483-489): progress
100, a base64 data URL, and the sanitized filename. -/
def doneEvent (dataB64 filename : String) : Event :=
  { stage := Stage.complete, progress := 100, message := "Download complete!",
    downloadUrl := some (("data:audio/mpeg;base64,") ++ dataB64),
    filename := some filename }

/-- `searchQuery` (route.ts:338): `spotifyUrl || `${artist} - ${title}``. -/
def spotQuery (env : Env) : String :=
  jsOr env.spotifyUrl (env.artist ++ (" - ") ++ env.title)

/-- The alternative search query `` `${title} ${artist}` ``
(route.ts:419). -/
def altQuery (env : Env) : String :=
  env.title ++ (" ") ++ env.artist

/-- An `onProgress` pair forwarded through `sendEvent` with
`stage: "downloading"` (route.ts:357-363 and 441-447). -/
def progressEvents (l : List (ℚ × String)) : List Event :=
  l.map (fun qm => { stage := Stage.downloading, progress := qm.1, message := qm.2 })

/-- Events emitted in the spotdl branch before its outcome is known:
searching 20, downloading 40, then the forwarded subprocess progress. -/
def spotPre (env : Env) : List Event :=
  spotSearchEvent :: spotStartEvent :: progressEvents (spotEmits env.spot.chunks)

/-- The spotdl branch makes exactly one external call, to
`downloadWithSpotDl` with `searchQuery` (route.ts:357). -/
def spotCalls (env : Env) : Calls :=
  { spotdl := [spotQuery env], search := [], ytdlp := [] }

/-- The spotdl branch of `POST` (route.ts:343-406): emit the two leading
events, run `downloadWithSpotDl` forwarding its progress, then either the
error path (`!outputPath || !existsSync(outputPath)`), the exception path
(`readFileSync` throws after the `converting` event, caught at
route.ts:554-562), or the success path, which attempts to unlink the
output file before emitting `complete`. Only the success path attempts
any deletion, and even there an `unlinkSync` failure is caught and
ignored (route.ts:387-398), leaving the file in place. -/
def spotBranch (env : Env) : Outcome :=
  let evfs : List Event × List String :=
    match spotdlResolve env.tempDir env.spot with
    | none => (spotPre env ++ [spotFailEvent], env.spot.created)
    | some outputPath =>
        if outputPath ∈ env.spot.created then
          if env.spotReadOk = true then
            (spotPre env ++ [convertEvent,
               doneEvent env.spotData (sanitizedTitle env.artist env.title ++ (".mp3"))],
             if env.spotUnlinkOk = true then
               env.spot.created.filter (fun q => q != outputPath)
             else env.spot.created)
          else
            (spotPre env ++ [convertEvent, errorEvent env.catchMsg], env.spot.created)
        else
          (spotPre env ++ [spotFailEvent], env.spot.created)
  { events := evfs.1, calls := spotCalls env, fs := evfs.2 }

/-- `outputPath` of the yt-dlp branch (route.ts:439):
`join(tempDir, `${sanitizedTitle}.mp3`)`. -/
def ytOutputPath (env : Env) : String :=
  env.tempDir ++ ("/") ++ sanitizedTitle env.artist env.title ++ (".mp3")

/-- Events emitted in the yt-dlp branch once a video id was found. -/
def ytPre (env : Env) : List Event :=
  ytSearchEvent :: ytStartEvent :: progressEvents (ytEmits env.ytrun.chunks)

/-- The download phase of the yt-dlp branch (route.ts:433-489), entered
with the search calls already made and a truthy video id. As in the
spotdl branch, only the success path attempts `unlinkSync`, and its
failure is caught and ignored (route.ts:471-481). -/
def ytDownloadPhase (env : Env) (searchCalls : List String) (vid : String) : Outcome :=
  let outputPath := ytOutputPath env
  let evfs : List Event × List String :=
    if ytdlpResolve env.ytrun = true ∧ outputPath ∈ env.ytrun.created then
      if env.ytReadOk = true then
        (ytPre env ++ [convertEvent,
           doneEvent env.ytData (sanitizedTitle env.artist env.title ++ (".mp3"))],
         if env.ytUnlinkOk = true then
           env.ytrun.created.filter (fun q => q != outputPath)
         else env.ytrun.created)
      else
        (ytPre env ++ [convertEvent, errorEvent env.catchMsg], env.ytrun.created)
    else
      (ytPre env ++ [ytFailEvent], env.ytrun.created)
  { events := evfs.1,
    calls := { spotdl := [], search := searchCalls, ytdlp := [vid] },
    fs := evfs.2 }

/-- The yt-dlp branch of `POST` (route.ts:407-489): search with the
primary query; on a falsy result retry once with `` `${title} ${artist}` ``;
if still falsy, terminal error; else download. -/
def ytBranch (env : Env) : Outcome :=
  match jsTruthy (searchResolve env.search1) with
  | some vid => ytDownloadPhase env [spotQuery env] vid
  | none =>
      match jsTruthy (searchResolve env.search2) with
      | some vid => ytDownloadPhase env [spotQuery env, altQuery env] vid
      | none =>
          { events := [ytSearchEvent, ytNotFoundEvent],
            calls := { spotdl := [], search := [spotQuery env, altQuery env], ytdlp := [] },
            fs := [] }

/-- The `catch` outcome when `mkdirSync` throws before anything was
emitted (route.ts:331-335 and 554-562). -/
def mkdirFailOutcome (env : Env) : Outcome :=
  { events := [errorEvent env.catchMsg],
    calls := { spotdl := [], search := [], ytdlp := [] },
    fs := [] }

/-- The stream-start handler of `POST` (route.ts:324-573): create the
temp directory, then branch on the two availability probes — spotdl if
present, else yt-dlp if present, else an immediate terminal error. -/
def runPOST (env : Env) : Outcome :=
  if env.mkdirOk = false then mkdirFailOutcome env
  else if env.useSpotDl = true then spotBranch env
  else if env.useYtDlp = true then ytBranch env
  else
    { events := [noToolsEvent],
      calls := { spotdl := [], search := [], ytdlp := [] },
      fs := [] }

/-- A terminal event: stage `complete` or `error`. -/
def isTerminal (e : Event) : Bool :=
  match e.stage with
  | Stage.complete => true
  | Stage.error => true
  | _ => false

/-- The timeout budgets the route registers with `setTimeout`:
5 minutes for `downloadWithSpotDl` (route.ts:136-139). -/
def spotdlTimeoutMs : ℕ := 300000

/-- 30 seconds for `searchYouTube` (route.ts:173-176). -/
def searchTimeoutMs : ℕ := 30000

/-- 5 minutes for `downloadWithYtDlp` (route.ts:224-227). -/
def ytdlpTimeoutMs : ℕ := 300000

/-- Timed view of one subprocess promise: the times (ms after spawn) at
which its `close` and `error` events fire, `none` if never. -/
structure TimedRun where
  closeAt : Option ℕ
  errorAt : Option ℕ
  deriving DecidableEq, Repr

/-- When the promise executor first calls `resolve`, under the event-loop
semantics in which the `setTimeout(…, budget)` handler registered at spawn
(route.ts:136-139, 173-176, 224-227) runs at its delay: the earliest of
the `close` event, the `error` event, and the timeout timer — whose
handler kills the subprocess and resolves with the failure value. -/
def resolveAt (budget : ℕ) (r : TimedRun) : ℕ :=
  min (min (r.closeAt.getD budget) (r.errorAt.getD budget)) budget

/-! ## Branch selection and per-leaf characterizations -/

lemma runPOST_mkdirFail (env : Env) (h : env.mkdirOk = false) :
    runPOST env = mkdirFailOutcome env := by
  simp [runPOST, h]

lemma runPOST_spot (env : Env) (hm : env.mkdirOk = true) (hs : env.useSpotDl = true) :
    runPOST env = spotBranch env := by
  simp [runPOST, hm, hs]

lemma runPOST_yt (env : Env) (hm : env.mkdirOk = true) (hs : env.useSpotDl = false)
    (hy : env.useYtDlp = true) : runPOST env = ytBranch env := by
  simp [runPOST, hm, hs, hy]

lemma runPOST_noTools (env : Env) (hm : env.mkdirOk = true) (hs : env.useSpotDl = false)
    (hy : env.useYtDlp = false) :
    runPOST env =
      { events := [noToolsEvent],
        calls := { spotdl := [], search := [], ytdlp := [] }, fs := [] } := by
  simp [runPOST, hm, hs, hy]

lemma spotBranch_fail (env : Env) (hf : spotdlResolve env.tempDir env.spot = none) :
    spotBranch env =
      { events := spotPre env ++ [spotFailEvent],
        calls := spotCalls env, fs := env.spot.created } := by
  unfold spotBranch
  rw [hf]

lemma spotBranch_missing (env : Env) (p : String)
    (hr : spotdlResolve env.tempDir env.spot = some p) (hp : p ∉ env.spot.created) :
    spotBranch env =
      { events := spotPre env ++ [spotFailEvent],
        calls := spotCalls env, fs := env.spot.created } := by
  unfold spotBranch
  rw [hr]
  simp only [if_neg hp]

lemma spotBranch_readFail (env : Env) (p : String)
    (hr : spotdlResolve env.tempDir env.spot = some p) (hp : p ∈ env.spot.created)
    (hread : env.spotReadOk = false) :
    spotBranch env =
      { events := spotPre env ++ [convertEvent, errorEvent env.catchMsg],
        calls := spotCalls env, fs := env.spot.created } := by
  unfold spotBranch
  rw [hr]
  simp only [if_pos hp, hread]
  simp

lemma spotBranch_success (env : Env) (p : String)
    (hr : spotdlResolve env.tempDir env.spot = some p) (hp : p ∈ env.spot.created)
    (hread : env.spotReadOk = true) :
    spotBranch env =
      { events := spotPre env ++ [convertEvent,
          doneEvent env.spotData (sanitizedTitle env.artist env.title ++ (".mp3"))],
        calls := spotCalls env,
        fs := if env.spotUnlinkOk = true then
                env.spot.created.filter (fun q => q != p)
              else env.spot.created } := by
  unfold spotBranch
  rw [hr]
  simp only [if_pos hp, hread]
  simp

lemma ytBranch_found1 (env : Env) (v : String)
    (h : jsTruthy (searchResolve env.search1) = some v) :
    ytBranch env = ytDownloadPhase env [spotQuery env] v := by
  unfold ytBranch
  rw [h]

lemma ytBranch_found2 (env : Env) (v : String)
    (h1 : jsTruthy (searchResolve env.search1) = none)
    (h2 : jsTruthy (searchResolve env.search2) = some v) :
    ytBranch env = ytDownloadPhase env [spotQuery env, altQuery env] v := by
  unfold ytBranch
  rw [h1, h2]

lemma ytBranch_notFound (env : Env)
    (h1 : jsTruthy (searchResolve env.search1) = none)
    (h2 : jsTruthy (searchResolve env.search2) = none) :
    ytBranch env =
      { events := [ytSearchEvent, ytNotFoundEvent],
        calls := { spotdl := [], search := [spotQuery env, altQuery env], ytdlp := [] },
        fs := [] } := by
  unfold ytBranch
  rw [h1, h2]

lemma ytPhase_calls (env : Env) (sc : List String) (v : String) :
    (ytDownloadPhase env sc v).calls =
      { spotdl := [], search := sc, ytdlp := [v] } := rfl

lemma ytPhase_fail (env : Env) (sc : List String) (v : String)
    (h : ¬ (ytdlpResolve env.ytrun = true ∧ ytOutputPath env ∈ env.ytrun.created)) :
    ytDownloadPhase env sc v =
      { events := ytPre env ++ [ytFailEvent],
        calls := { spotdl := [], search := sc, ytdlp := [v] },
        fs := env.ytrun.created } := by
  unfold ytDownloadPhase
  simp only [if_neg h]

lemma ytPhase_readFail (env : Env) (sc : List String) (v : String)
    (hd : ytdlpResolve env.ytrun = true) (hp : ytOutputPath env ∈ env.ytrun.created)
    (hread : env.ytReadOk = false) :
    ytDownloadPhase env sc v =
      { events := ytPre env ++ [convertEvent, errorEvent env.catchMsg],
        calls := { spotdl := [], search := sc, ytdlp := [v] },
        fs := env.ytrun.created } := by
  unfold ytDownloadPhase
  simp only [if_pos (And.intro hd hp), hread]
  simp

lemma ytPhase_success (env : Env) (sc : List String) (v : String)
    (hd : ytdlpResolve env.ytrun = true) (hp : ytOutputPath env ∈ env.ytrun.created)
    (hread : env.ytReadOk = true) :
    ytDownloadPhase env sc v =
      { events := ytPre env ++ [convertEvent,
          doneEvent env.ytData (sanitizedTitle env.artist env.title ++ (".mp3"))],
        calls := { spotdl := [], search := sc, ytdlp := [v] },
        fs := if env.ytUnlinkOk = true then
                env.ytrun.created.filter (fun q => q != ytOutputPath env)
              else env.ytrun.created } := by
  unfold ytDownloadPhase
  simp only [if_pos (And.intro hd hp), hread]
  simp

/-! ## Bounds on the rescaled subprocess progress -/

lemma dlNote_bounds (c : SpotChunk) :
    ∀ qm ∈ dlNote c, 40 < qm.1 ∧ qm.1 ≤ 90 := by
  intro qm hqm
  unfold dlNote at hqm
  rcases hc : c.downloaded with _ | _ <;> rw [hc] at hqm <;> simp at hqm
  rw [hqm]
  norm_num

lemma spotParse_bounds (last : Nat) (c : SpotChunk) :
    ∀ qm ∈ (spotParse last c).2, 40 < qm.1 ∧ qm.1 ≤ 90 := by
  intro qm hqm
  unfold spotParse at hqm
  rcases hc : c.percent with _ | raw <;> simp only [hc] at hqm
  · exact dlNote_bounds c qm hqm
  · by_cases hgt : min raw 100 > last
    · rw [if_pos hgt] at hqm
      rcases List.mem_cons.mp hqm with h | h
      · have h1 : (1 : ℚ) ≤ ((min raw 100 : ℕ) : ℚ) := by
          exact_mod_cast Nat.one_le_iff_ne_zero.mpr (by omega)
        have h2 : ((min raw 100 : ℕ) : ℚ) ≤ 100 := by
          exact_mod_cast Nat.min_le_right raw 100
        have half : (0.5 : ℚ) = 1 / 2 := by norm_num
        simp only [h]
        rw [half]
        constructor
        · linarith
        · linarith
      · exact dlNote_bounds c qm h
    · rw [if_neg hgt] at hqm
      exact dlNote_bounds c qm hqm

lemma spotEmitsAux_bounds (l : List SpotChunk) :
    ∀ last, ∀ qm ∈ spotEmitsAux last l, 40 < qm.1 ∧ qm.1 ≤ 90 := by
  induction l with
  | nil => intro last qm hqm; simp [spotEmitsAux] at hqm
  | cons c cs ih =>
      intro last qm hqm
      unfold spotEmitsAux at hqm
      rcases List.mem_append.mp hqm with h | h
      · exact spotParse_bounds last c qm h
      · exact ih _ qm h

lemma spotEmits_bounds (l : List SpotChunk) :
    ∀ qm ∈ spotEmits l, 40 < qm.1 ∧ qm.1 ≤ 90 :=
  spotEmitsAux_bounds l 0

lemma ytParse_bounds (last : ℚ) (hl : 0 ≤ last) (c : YtChunk) :
    (∀ qm ∈ (ytParse last c).2, 40 < qm.1 ∧ qm.1 ≤ 90) ∧ 0 ≤ (ytParse last c).1 := by
  unfold ytParse
  rcases hc : c.percent with _ | raw <;> simp only [hc]
  · exact ⟨by intro qm hqm; simp at hqm, hl⟩
  · by_cases hgt : min raw 100 > last
    · rw [if_pos hgt]
      have h0 : (0 : ℚ) < min raw 100 := lt_of_le_of_lt hl hgt
      have h2 : min raw 100 ≤ (100 : ℚ) := min_le_right raw 100
      constructor
      · intro qm hqm
        rcases List.mem_cons.mp hqm with h | h
        · have half : (0.5 : ℚ) = 1 / 2 := by norm_num
          simp only [h]
          rw [half]
          constructor
          · linarith
          · linarith
        · simp at h
      · exact le_of_lt h0
    · rw [if_neg hgt]
      exact ⟨by intro qm hqm; simp at hqm, hl⟩

lemma ytEmitsAux_bounds (l : List YtChunk) :
    ∀ last, 0 ≤ last → ∀ qm ∈ ytEmitsAux last l, 40 < qm.1 ∧ qm.1 ≤ 90 := by
  induction l with
  | nil => intro last _ qm hqm; simp [ytEmitsAux] at hqm
  | cons c cs ih =>
      intro last hl qm hqm
      unfold ytEmitsAux at hqm
      rcases List.mem_append.mp hqm with h | h
      · exact (ytParse_bounds last hl c).1 qm h
      · exact ih _ (ytParse_bounds last hl c).2 qm h

lemma ytEmits_bounds (l : List YtChunk) :
    ∀ qm ∈ ytEmits l, 40 < qm.1 ∧ qm.1 ≤ 90 :=
  ytEmitsAux_bounds l 0 le_rfl

/-! ## Shape of a request's event sequence -/

/-- A non-terminal event with in-range progress. -/
def goodPre (e : Event) : Prop :=
  isTerminal e = false ∧ 0 ≤ e.progress ∧ e.progress ≤ 100

/-- A terminal event with in-range progress that, when it is the
`complete` event, carries the sanitized filename. -/
def goodTerm (env : Env) (t : Event) : Prop :=
  isTerminal t = true ∧ 0 ≤ t.progress ∧ t.progress ≤ 100 ∧
    (t.stage = Stage.complete →
      t.filename = some (sanitizedTitle env.artist env.title ++ (".mp3")))

lemma goodTerm_error (env : Env) (msg : String) : goodTerm env (errorEvent msg) := by
  refine ⟨rfl, le_refl 0, by norm_num [errorEvent], fun h => ?_⟩
  exact absurd h (by simp [errorEvent])

lemma goodTerm_done (env : Env) (d : String) :
    goodTerm env (doneEvent d (sanitizedTitle env.artist env.title ++ (".mp3"))) := by
  exact ⟨rfl, by norm_num [doneEvent], by norm_num [doneEvent], fun _ => rfl⟩

lemma progressEvents_good (l : List (ℚ × String))
    (hb : ∀ qm ∈ l, 40 < qm.1 ∧ qm.1 ≤ 90) :
    ∀ e ∈ progressEvents l, goodPre e := by
  intro e he
  rcases List.mem_map.mp he with ⟨qm, hqm, hqe⟩
  have hq := hb qm hqm
  rw [← hqe]
  exact ⟨rfl, by linarith [hq.1], by linarith [hq.2]⟩

lemma spotPre_good (env : Env) : ∀ e ∈ spotPre env, goodPre e := by
  intro e he
  simp only [spotPre, List.mem_cons] at he
  rcases he with h | h | h
  · rw [h]; exact ⟨rfl, by norm_num [spotSearchEvent], by norm_num [spotSearchEvent]⟩
  · rw [h]; exact ⟨rfl, by norm_num [spotStartEvent], by norm_num [spotStartEvent]⟩
  · exact progressEvents_good _ (spotEmits_bounds env.spot.chunks) e h

lemma ytPre_good (env : Env) : ∀ e ∈ ytPre env, goodPre e := by
  intro e he
  simp only [ytPre, List.mem_cons] at he
  rcases he with h | h | h
  · rw [h]; exact ⟨rfl, by norm_num [ytSearchEvent], by norm_num [ytSearchEvent]⟩
  · rw [h]; exact ⟨rfl, by norm_num [ytStartEvent], by norm_num [ytStartEvent]⟩
  · exact progressEvents_good _ (ytEmits_bounds env.ytrun.chunks) e h

lemma convertEvent_good : goodPre convertEvent :=
  ⟨rfl, by norm_num [convertEvent], by norm_num [convertEvent]⟩

lemma spotBranch_shape (env : Env) :
    ∃ pre t, (spotBranch env).events = pre ++ [t] ∧
      (∀ e ∈ pre, goodPre e) ∧ goodTerm env t := by
  rcases hr : spotdlResolve env.tempDir env.spot with _ | p
  · rw [spotBranch_fail env hr]
    exact ⟨spotPre env, spotFailEvent, rfl, spotPre_good env, goodTerm_error env _⟩
  · by_cases hp : p ∈ env.spot.created
    · rcases hread : env.spotReadOk with _ | _
      · rw [spotBranch_readFail env p hr hp hread]
        refine ⟨spotPre env ++ [convertEvent], errorEvent env.catchMsg, by simp, ?_,
          goodTerm_error env _⟩
        intro e he
        rcases List.mem_append.mp he with h | h
        · exact spotPre_good env e h
        · rw [List.mem_singleton.mp h]; exact convertEvent_good
      · rw [spotBranch_success env p hr hp hread]
        refine ⟨spotPre env ++ [convertEvent],
          doneEvent env.spotData (sanitizedTitle env.artist env.title ++ (".mp3")),
          by simp, ?_, goodTerm_done env env.spotData⟩
        intro e he
        rcases List.mem_append.mp he with h | h
        · exact spotPre_good env e h
        · rw [List.mem_singleton.mp h]; exact convertEvent_good
    · rw [spotBranch_missing env p hr hp]
      exact ⟨spotPre env, spotFailEvent, rfl, spotPre_good env, goodTerm_error env _⟩

lemma ytPhase_shape (env : Env) (sc : List String) (v : String) :
    ∃ pre t, (ytDownloadPhase env sc v).events = pre ++ [t] ∧
      (∀ e ∈ pre, goodPre e) ∧ goodTerm env t := by
  by_cases hok : ytdlpResolve env.ytrun = true ∧ ytOutputPath env ∈ env.ytrun.created
  · rcases hread : env.ytReadOk with _ | _
    · rw [ytPhase_readFail env sc v hok.1 hok.2 hread]
      refine ⟨ytPre env ++ [convertEvent], errorEvent env.catchMsg, by simp, ?_,
        goodTerm_error env _⟩
      intro e he
      rcases List.mem_append.mp he with h | h
      · exact ytPre_good env e h
      · rw [List.mem_singleton.mp h]; exact convertEvent_good
    · rw [ytPhase_success env sc v hok.1 hok.2 hread]
      refine ⟨ytPre env ++ [convertEvent],
        doneEvent env.ytData (sanitizedTitle env.artist env.title ++ (".mp3")),
        by simp, ?_, goodTerm_done env env.ytData⟩
      intro e he
      rcases List.mem_append.mp he with h | h
      · exact ytPre_good env e h
      · rw [List.mem_singleton.mp h]; exact convertEvent_good
  · rw [ytPhase_fail env sc v hok]
    exact ⟨ytPre env, ytFailEvent, rfl, ytPre_good env, goodTerm_error env _⟩

lemma ytBranch_shape (env : Env) :
    ∃ pre t, (ytBranch env).events = pre ++ [t] ∧
      (∀ e ∈ pre, goodPre e) ∧ goodTerm env t := by
  rcases h1 : jsTruthy (searchResolve env.search1) with _ | v
  · rcases h2 : jsTruthy (searchResolve env.search2) with _ | v
    · rw [ytBranch_notFound env h1 h2]
      refine ⟨[ytSearchEvent], ytNotFoundEvent, rfl, ?_, goodTerm_error env _⟩
      intro e he
      rw [List.mem_singleton.mp he]
      exact ⟨rfl, by norm_num [ytSearchEvent], by norm_num [ytSearchEvent]⟩
    · rw [ytBranch_found2 env v h1 h2]
      exact ytPhase_shape env _ v
  · rw [ytBranch_found1 env v h1]
    exact ytPhase_shape env _ v

lemma bool_eq_false_of_not_true {b : Bool} (h : ¬ b = true) : b = false := by
  rcases hb : b with _ | _
  · rfl
  · exact absurd hb h

/-- Every request's event sequence is a possibly empty non-terminal
prefix followed by one terminal event. -/
lemma runPOST_shape (env : Env) :
    ∃ pre t, (runPOST env).events = pre ++ [t] ∧
      (∀ e ∈ pre, goodPre e) ∧ goodTerm env t := by
  by_cases hm : env.mkdirOk = true
  · by_cases hs : env.useSpotDl = true
    · rw [runPOST_spot env hm hs]
      exact spotBranch_shape env
    · have hs' := bool_eq_false_of_not_true hs
      by_cases hy : env.useYtDlp = true
      · rw [runPOST_yt env hm hs' hy]
        exact ytBranch_shape env
      · have hy' := bool_eq_false_of_not_true hy
        rw [runPOST_noTools env hm hs' hy']
        exact ⟨[], noToolsEvent, rfl, by intro e he; simp at he, goodTerm_error env _⟩
  · have hm' := bool_eq_false_of_not_true hm
    rw [runPOST_mkdirFail env hm']
    exact ⟨[], errorEvent env.catchMsg, rfl, by intro e he; simp at he,
      goodTerm_error env _⟩

/-! ## Remaining helpers -/

lemma filter_isTerminal_eq_nil (l : List Event) (h : ∀ e ∈ l, isTerminal e = false) :
    l.filter isTerminal = [] := by
  induction l with
  | nil => rfl
  | cons a t ih =>
      rw [List.filter_cons, h a (List.mem_cons_self a t)]
      simp only [Bool.false_eq_true, if_false]
      exact ih (fun e he => h e (List.mem_cons_of_mem a he))

lemma isTerminal_of_complete (e : Event) (h : e.stage = Stage.complete) :
    isTerminal e = true := by
  unfold isTerminal
  rw [h]

lemma not_mem_filter_ne (l : List String) (p : String) :
    p ∉ l.filter (fun q => q != p) := by
  intro h
  have hb := List.of_mem_filter h
  simp at hb

lemma sanitizedFilename_length (artist title : String) :
    (sanitizedTitle artist title ++ (".mp3")).length ≤ 104 := by
  rw [String.length_append]
  have h1 : (sanitizedTitle artist title).length ≤ 100 := by
    show (((artist ++ (" - ") ++ title).toList.filter isSafeChar).take 100).length ≤ 100
    simp [List.length_take]
  have h2 : (".mp3" : String).length = 4 := rfl
  omega

lemma sanitizedFilename_chars (artist title : String) :
    ∀ c ∈ (sanitizedTitle artist title ++ (".mp3")).toList,
      isSafeChar c = true ∨ c = ('.' : Char) := by
  intro c hc
  rw [show (sanitizedTitle artist title ++ (".mp3")).toList
        = ((artist ++ (" - ") ++ title).toList.filter isSafeChar).take 100
            ++ [('.' : Char), 'm', 'p', '3'] from rfl] at hc
  rcases List.mem_append.mp hc with h | h
  · exact Or.inl (List.of_mem_filter (List.take_subset _ _ h))
  · simp only [List.mem_cons] at h
    rcases h with h | h | h | h
    · exact Or.inr h
    · exact Or.inl (by rw [h]; rfl)
    · exact Or.inl (by rw [h]; rfl)
    · rcases h with h | h
      · exact Or.inl (by rw [h]; rfl)
      · simp at h

/-! ## Concrete request environments -/

/-- Both probes succeed; spotdl's subprocess prints a "Downloaded" line
(progress 90) followed by a stray lower percentage (95% → rescaled 87.5),
then exits with code 1 having created no file; both YouTube search runs
would have succeeded, and the yt-dlp download would have succeeded too. -/
def envBoth : Env :=
  { title := "Song", artist := "Artist", spotifyUrl := none, tempDir := "/tmp/d",
    mkdirOk := true, useSpotDl := true, useYtDlp := true,
    spot := { chunks := [{ percent := none, downloaded := true },
                         { percent := some 95, downloaded := false }],
              dirFiles := some [], ended := ProcEnd.close (some 1), created := [] },
    spotReadOk := true, spotData := "QUJD", spotUnlinkOk := true,
    search1 := { vid := "abcdefghijk", ended := ProcEnd.close (some 0) },
    search2 := { vid := "abcdefghijk", ended := ProcEnd.close (some 0) },
    ytrun := { chunks := [], ended := ProcEnd.close (some 0), created := ["/tmp/d/Artist - Song.mp3"] },
    ytReadOk := true, ytData := "RUZH", ytUnlinkOk := true, catchMsg := "boom" }

/-- Neither tool is on the PATH. -/
def envNone : Env :=
  { envBoth with useSpotDl := false, useYtDlp := false }

/-- spotdl exits nonzero but leaves a partial file in the temp
directory. -/
def envLeak : Env :=
  { envBoth with
    spot := { chunks := [], dirFiles := some [], ended := ProcEnd.close (some 1),
              created := ["/tmp/d/track.mp3"] } }

/-- spotdl succeeds: exit code 0, one `.mp3` in the temp directory, and
the file is readable. -/
def envOk : Env :=
  { envBoth with
    spot := { chunks := [], dirFiles := some ["out.mp3"], ended := ProcEnd.close (some 0),
              created := ["/tmp/d/out.mp3"] } }

/-- As `envOk`, but `readFileSync` throws after the exists check: the
exception unwind reaches the `catch` handler with the file still on
disk. -/
def envReadThrow : Env :=
  { envOk with spotReadOk := false }

/-- As `envOk`, but `unlinkSync` itself throws; the source swallows the
error, so the file survives even the success path. -/
def envUnlinkFail : Env :=
  { envOk with spotUnlinkOk := false }

/-- Only yt-dlp is available and both YouTube searches fail (timeout). -/
def envYtFail : Env :=
  { envBoth with
    useSpotDl := false,
    search1 := { vid := "", ended := ProcEnd.timeout },
    search2 := { vid := "", ended := ProcEnd.timeout } }

/-! ## The claims -/

/-- Claim C1: for every download request handled by `POST`, exactly one
terminal event (stage `complete` or stage `error`) is emitted on the
progress stream, and it is the last event emitted before the stream is
closed: the event list splits as a terminal-free prefix followed by one
terminal event, and filtering the list for terminal events yields exactly
that one event. -/
theorem C1_one_terminal_last (env : Env) :
    ∃ pre t, (runPOST env).events = pre ++ [t] ∧ isTerminal t = true ∧
      (runPOST env).events.filter isTerminal = [t] := by
  obtain ⟨pre, t, hev, hpre, hterm⟩ := runPOST_shape env
  refine ⟨pre, t, hev, hterm.1, ?_⟩
  rw [hev, List.filter_append, filter_isTerminal_eq_nil pre (fun e he => (hpre e he).1),
    List.nil_append, List.filter_cons, hterm.1]
  simp

/-- Claim C2, counterexample: in the environment `envBoth` the emitted
progress sequence is 20, 40, 90, 87.5, 0 — the stray 95% line after the
"Downloaded" 90 re-emits 87.5 < 90, and the terminal error event carries
progress 0 < 40 — so the sequence of emitted `progress` values is not
non-decreasing. -/
theorem C2_counterexample :
    (runPOST envBoth).events.map Event.progress = [20, 40, 90, 87.5, 0] ∧
    ¬ List.Sorted (fun a b : ℚ => a ≤ b) ((runPOST envBoth).events.map Event.progress) := by
  have hmap : (runPOST envBoth).events.map Event.progress = [20, 40, 90, 87.5, 0] := by
    norm_num [runPOST, envBoth, spotBranch, spotPre, spotEmits, spotEmitsAux, spotParse,
      dlNote, progressEvents, spotdlResolve, spotdlCloseResult, spotFailEvent, errorEvent,
      spotSearchEvent, spotStartEvent]
  refine ⟨hmap, ?_⟩
  rw [hmap]
  norm_num [List.sorted_cons]

/-- Claim C2 (amended): every `progress` value emitted by `POST` lies in
[0, 100]; the sequence is not non-decreasing, because a terminal `error`
event always carries progress 0 and a late lower percentage after a
"Downloaded" line re-emits below 90. -/
theorem C2_progress_bounded (env : Env) :
    ∀ e ∈ (runPOST env).events, 0 ≤ e.progress ∧ e.progress ≤ 100 := by
  obtain ⟨pre, t, hev, hpre, hterm⟩ := runPOST_shape env
  rw [hev]
  intro e he
  rcases List.mem_append.mp he with h | h
  · exact (hpre e h).2
  · rw [List.mem_singleton.mp h]
    exact ⟨hterm.2.1, hterm.2.2.1⟩

/-- Witness for C2 (amended) at the concrete environment with no tools
installed. -/
theorem C2_progress_bounded_witness :
    0 ≤ noToolsEvent.progress ∧ noToolsEvent.progress ≤ 100 :=
  C2_progress_bounded envNone noToolsEvent
    (by rw [runPOST_noTools envNone rfl rfl rfl]; exact List.mem_singleton.mpr rfl)

/-- Claim C3, counterexample: in `envBoth` the spotdl subprocess fails
retryably (exit code 1, a transfer failure) while yt-dlp is available and
its search and download would both succeed — yet `POST` emits the
terminal error immediately and never calls `searchYouTube` or
`downloadWithYtDlp`. -/
theorem C3_counterexample :
    envBoth.useYtDlp = true ∧
    envBoth.spot.ended = ProcEnd.close (some 1) ∧
    (runPOST envBoth).calls.search = [] ∧
    (runPOST envBoth).calls.ytdlp = [] ∧
    (runPOST envBoth).events = spotPre envBoth ++ [spotFailEvent] := by
  rw [(runPOST_spot envBoth rfl rfl).trans (spotBranch_fail envBoth rfl)]
  exact ⟨rfl, rfl, rfl, rfl, rfl⟩

/-- Claim C3 (amended): the two strategies are never chained. When the
spotdl probe succeeds, a spotdl failure of any kind leads directly to the
terminal `error` event; the yt-dlp functions are not invoked at all. -/
theorem C3_no_fallback (env : Env) (hm : env.mkdirOk = true) (hs : env.useSpotDl = true)
    (hf : spotdlResolve env.tempDir env.spot = none) :
    (runPOST env).calls.search = [] ∧ (runPOST env).calls.ytdlp = [] ∧
    (runPOST env).events = spotPre env ++ [spotFailEvent] := by
  rw [runPOST_spot env hm hs, spotBranch_fail env hf]
  exact ⟨rfl, rfl, rfl⟩

/-- Witness for C3 (amended) at `envBoth`. -/
theorem C3_no_fallback_witness :
    (runPOST envBoth).calls.search = [] ∧ (runPOST envBoth).calls.ytdlp = [] ∧
    (runPOST envBoth).events = spotPre envBoth ++ [spotFailEvent] :=
  C3_no_fallback envBoth rfl rfl rfl

/-- Claim C4, counterexample: in `envLeak` the spotdl subprocess creates
`/tmp/d/track.mp3` in the request's temp directory and then exits
nonzero; `POST` takes the failure path and the file still exists when the
stream handler returns. -/
theorem C4_counterexample :
    ("/tmp/d/track.mp3") ∈ envLeak.spot.created ∧
    (runPOST envLeak).events = spotPre envLeak ++ [spotFailEvent] ∧
    ("/tmp/d/track.mp3") ∈ (runPOST envLeak).fs := by
  rw [(runPOST_spot envLeak rfl rfl).trans (spotBranch_fail envLeak rfl)]
  exact ⟨List.mem_singleton.mpr rfl, rfl, List.mem_singleton.mpr rfl⟩

/-- Claim C4 (amended): a deletion of the working file is attempted only
on the success path, after its bytes are read, and the file is gone only
when that `unlinkSync` call itself succeeds — its failure is caught and
ignored, leaving the file behind even on success. On a strategy-failure
result and on the exception unwind (`readFileSync` throwing after the
exists check) no cleanup is attempted at all and the temp directory's
files are left untouched. All of this holds in both the spotdl and the
yt-dlp branch. -/
theorem C4_cleanup_on_success_only (env : Env) (p : String) (hm : env.mkdirOk = true) :
    (env.useSpotDl = true → spotdlResolve env.tempDir env.spot = some p →
       p ∈ env.spot.created → env.spotReadOk = true → env.spotUnlinkOk = true →
       p ∉ (runPOST env).fs) ∧
    (env.useSpotDl = true → spotdlResolve env.tempDir env.spot = some p →
       p ∈ env.spot.created → env.spotReadOk = true → env.spotUnlinkOk = false →
       (runPOST env).fs = env.spot.created) ∧
    (env.useSpotDl = true → spotdlResolve env.tempDir env.spot = none →
       (runPOST env).fs = env.spot.created) ∧
    (env.useSpotDl = true → spotdlResolve env.tempDir env.spot = some p →
       p ∈ env.spot.created → env.spotReadOk = false →
       (runPOST env).fs = env.spot.created) ∧
    (env.useSpotDl = false → env.useYtDlp = true →
       ∀ v, jsTruthy (searchResolve env.search1) = some v →
         ytdlpResolve env.ytrun = true → ytOutputPath env ∈ env.ytrun.created →
         env.ytReadOk = true → env.ytUnlinkOk = true →
         ytOutputPath env ∉ (runPOST env).fs) ∧
    (env.useSpotDl = false → env.useYtDlp = true →
       ∀ v, jsTruthy (searchResolve env.search1) = some v →
         ytdlpResolve env.ytrun = true → ytOutputPath env ∈ env.ytrun.created →
         env.ytReadOk = true → env.ytUnlinkOk = false →
         (runPOST env).fs = env.ytrun.created) ∧
    (env.useSpotDl = false → env.useYtDlp = true →
       ∀ v, jsTruthy (searchResolve env.search1) = some v →
         ¬ (ytdlpResolve env.ytrun = true ∧ ytOutputPath env ∈ env.ytrun.created) →
         (runPOST env).fs = env.ytrun.created) ∧
    (env.useSpotDl = false → env.useYtDlp = true →
       ∀ v, jsTruthy (searchResolve env.search1) = some v →
         ytdlpResolve env.ytrun = true → ytOutputPath env ∈ env.ytrun.created →
         env.ytReadOk = false →
         (runPOST env).fs = env.ytrun.created) := by
  refine ⟨?_, ?_, ?_, ?_, ?_, ?_, ?_, ?_⟩
  · intro hs hr hp hread hu
    rw [runPOST_spot env hm hs, spotBranch_success env p hr hp hread]
    show p ∉ (if env.spotUnlinkOk = true then
                env.spot.created.filter (fun q => q != p)
              else env.spot.created)
    rw [if_pos hu]
    exact not_mem_filter_ne env.spot.created p
  · intro hs hr hp hread hu
    rw [runPOST_spot env hm hs, spotBranch_success env p hr hp hread]
    show (if env.spotUnlinkOk = true then
            env.spot.created.filter (fun q => q != p)
          else env.spot.created) = env.spot.created
    rw [if_neg (by simp [hu])]
  · intro hs hf
    rw [runPOST_spot env hm hs, spotBranch_fail env hf]
  · intro hs hr hp hread
    rw [runPOST_spot env hm hs, spotBranch_readFail env p hr hp hread]
  · intro hs hy v hv hd hp hread hu
    rw [runPOST_yt env hm hs hy, ytBranch_found1 env v hv,
      ytPhase_success env _ v hd hp hread]
    show ytOutputPath env ∉ (if env.ytUnlinkOk = true then
            env.ytrun.created.filter (fun q => q != ytOutputPath env)
          else env.ytrun.created)
    rw [if_pos hu]
    exact not_mem_filter_ne env.ytrun.created (ytOutputPath env)
  · intro hs hy v hv hd hp hread hu
    rw [runPOST_yt env hm hs hy, ytBranch_found1 env v hv,
      ytPhase_success env _ v hd hp hread]
    show (if env.ytUnlinkOk = true then
            env.ytrun.created.filter (fun q => q != ytOutputPath env)
          else env.ytrun.created) = env.ytrun.created
    rw [if_neg (by simp [hu])]
  · intro hs hy v hv hno
    rw [runPOST_yt env hm hs hy, ytBranch_found1 env v hv, ytPhase_fail env _ v hno]
  · intro hs hy v hv hd hp hread
    rw [runPOST_yt env hm hs hy, ytBranch_found1 env v hv,
      ytPhase_readFail env _ v hd hp hread]

/-- Witness for C4 (amended): at `envOk` the successful spotdl run's
unlink removes `/tmp/d/out.mp3`; at `envReadThrow` the exception unwind
leaves the temp directory untouched; at `envUnlinkFail` even the success
path leaves the file on disk because `unlinkSync` threw. -/
theorem C4_cleanup_witness :
    ("/tmp/d/out.mp3") ∉ (runPOST envOk).fs ∧
    (runPOST envReadThrow).fs = envReadThrow.spot.created ∧
    ((runPOST envUnlinkFail).fs = envUnlinkFail.spot.created ∧
      ("/tmp/d/out.mp3") ∈ envUnlinkFail.spot.created) :=
  ⟨(C4_cleanup_on_success_only envOk ("/tmp/d/out.mp3") rfl).1 rfl rfl
      (List.mem_singleton.mpr rfl) rfl rfl,
   (C4_cleanup_on_success_only envReadThrow ("/tmp/d/out.mp3") rfl).2.2.2.1 rfl rfl
      (List.mem_singleton.mpr rfl) rfl,
   (C4_cleanup_on_success_only envUnlinkFail ("/tmp/d/out.mp3") rfl).2.1 rfl rfl
      (List.mem_singleton.mpr rfl) rfl rfl,
   List.mem_singleton.mpr rfl⟩

/-- Claim C5, counterexample: a subprocess percentage of 100 (with
`lastProgress` 0) makes `parseProgress` emit progress 90, not
`20 + 100 * 0.5 = 70`; the code's rescaling is `40 + p * 0.5`, not
`20 + p * 0.5`. -/
theorem C5_counterexample :
    (spotParse 0 { percent := some 100, downloaded := false }).2.map Prod.fst = [(90 : ℚ)] ∧
    ((90 : ℚ) ≠ 20 + 100 * 0.5) := by
  constructor
  · norm_num [spotParse, dlNote]
  · norm_num

/-- Claim C5 (amended): for every native percentage parsed from a
subprocess's output, the emitted downloading progress equals
`40 + min(p, 100) * 0.5`, which lies in the 40–90 range (strictly above
40, at most 90) — for both the spotdl and the yt-dlp progress parser. -/
theorem C5_rescale (last raw : ℕ) (lastq rawq : ℚ)
    (h : min raw 100 > last) (hq0 : 0 ≤ lastq) (hq : min rawq 100 > lastq) :
    ((spotParse last { percent := some raw, downloaded := false }).2 =
      [((40 : ℚ) + ((min raw 100 : ℕ) : ℚ) * 0.5,
        ("Downloading... ") ++ toString (min raw 100) ++ ("%"))] ∧
     40 < (40 : ℚ) + ((min raw 100 : ℕ) : ℚ) * 0.5 ∧
     (40 : ℚ) + ((min raw 100 : ℕ) : ℚ) * 0.5 ≤ 90) ∧
    ((ytParse lastq { percent := some rawq }).2 =
      [((40 : ℚ) + min rawq 100 * 0.5,
        ("Downloading audio... ") ++ toString (round (min rawq 100)) ++ ("%"))] ∧
     40 < (40 : ℚ) + min rawq 100 * 0.5 ∧
     (40 : ℚ) + min rawq 100 * 0.5 ≤ 90) := by
  have half : (0.5 : ℚ) = 1 / 2 := by norm_num
  have h1 : (1 : ℚ) ≤ ((min raw 100 : ℕ) : ℚ) := by
    exact_mod_cast Nat.one_le_iff_ne_zero.mpr (by omega)
  have h2 : ((min raw 100 : ℕ) : ℚ) ≤ 100 := by
    exact_mod_cast Nat.min_le_right raw 100
  have hq1 : (0 : ℚ) < min rawq 100 := lt_of_le_of_lt hq0 hq
  have hq2 : min rawq 100 ≤ (100 : ℚ) := min_le_right rawq 100
  refine ⟨⟨?_, ?_, ?_⟩, ⟨?_, ?_, ?_⟩⟩
  · unfold spotParse
    simp only [if_pos h, dlNote]
    simp
  · rw [half]; linarith
  · rw [half]; linarith
  · unfold ytParse
    simp only [if_pos hq]
  · rw [half]; linarith
  · rw [half]; linarith

/-- Witness for C5 (amended) at percentage 50 with `lastProgress` 0. -/
theorem C5_rescale_witness :
    ((spotParse 0 { percent := some 50, downloaded := false }).2 =
      [((40 : ℚ) + ((min 50 100 : ℕ) : ℚ) * 0.5,
        ("Downloading... ") ++ toString (min 50 100) ++ ("%"))] ∧
     40 < (40 : ℚ) + ((min 50 100 : ℕ) : ℚ) * 0.5 ∧
     (40 : ℚ) + ((min 50 100 : ℕ) : ℚ) * 0.5 ≤ 90) ∧
    ((ytParse 0 { percent := some 50 }).2 =
      [((40 : ℚ) + min 50 100 * 0.5,
        ("Downloading audio... ") ++ toString (round (min (50 : ℚ) 100)) ++ ("%"))] ∧
     40 < (40 : ℚ) + min (50 : ℚ) 100 * 0.5 ∧
     (40 : ℚ) + min (50 : ℚ) 100 * 0.5 ≤ 90) :=
  C5_rescale 0 50 0 50 (by decide) le_rfl
    (lt_min_iff.mpr ⟨by norm_num, by norm_num⟩)

/-- Claim C6, counterexample: in `envBoth` the spotdl strategy fails on
the primary query "Artist - Song", yet `downloadWithSpotDl` is invoked
exactly once — there is no retry with the alternate query form before the
terminal error. -/
theorem C6_counterexample :
    spotdlResolve envBoth.tempDir envBoth.spot = none ∧
    (runPOST envBoth).calls.spotdl = [("Artist - Song")] ∧
    (runPOST envBoth).events = spotPre envBoth ++ [spotFailEvent] := by
  rw [(runPOST_spot envBoth rfl rfl).trans (spotBranch_fail envBoth rfl)]
  exact ⟨rfl, rfl, rfl⟩

/-- Claim C6 (amended): only the yt-dlp branch retries, and only its
YouTube search: when `searchYouTube` with the primary query returns a
falsy result it is retried exactly once with `` `${title} ${artist}` ``;
the spotdl strategy is never retried with an alternate query. -/
theorem C6_search_retry (env : Env) (hm : env.mkdirOk = true) (hs : env.useSpotDl = false)
    (hy : env.useYtDlp = true) (h1 : jsTruthy (searchResolve env.search1) = none) :
    (runPOST env).calls.spotdl = [] ∧
    (runPOST env).calls.search = [spotQuery env, altQuery env] := by
  rw [runPOST_yt env hm hs hy]
  rcases h2 : jsTruthy (searchResolve env.search2) with _ | v
  · rw [ytBranch_notFound env h1 h2]
    exact ⟨rfl, rfl⟩
  · rw [ytBranch_found2 env v h1 h2]
    exact ⟨rfl, rfl⟩

/-- Witness for C6 (amended) at `envYtFail`. -/
theorem C6_search_retry_witness :
    (runPOST envYtFail).calls.spotdl = [] ∧
    (runPOST envYtFail).calls.search = [spotQuery envYtFail, altQuery envYtFail] :=
  C6_search_retry envYtFail rfl rfl rfl rfl

/-- Claim C7: `downloadWithSpotDl`'s close handler resolves to a file
path iff the exit code is 0 and the output directory holds at least one
`.mp3` file; a `readdirSync` failure also resolves `null`; and the
orchestrator treats a `null` resolution, or a resolved path missing on
disk, as a failure — emitting the terminal error, never `complete`. -/
theorem C7_success_iff_exit0_and_file :
    (∀ (dir : String) (entries : List String) (code : Option Int),
       (spotdlCloseResult dir (some entries) code).isSome = true ↔
         code = some 0 ∧ ∃ f ∈ entries, jsEndsWith f (".mp3") = true) ∧
    (∀ (dir : String) (code : Option Int), spotdlCloseResult dir none code = none) ∧
    (∀ env, env.mkdirOk = true → env.useSpotDl = true →
       spotdlResolve env.tempDir env.spot = none →
       (runPOST env).events = spotPre env ++ [spotFailEvent]) ∧
    (∀ env p, env.mkdirOk = true → env.useSpotDl = true →
       spotdlResolve env.tempDir env.spot = some p → p ∉ env.spot.created →
       (runPOST env).events = spotPre env ++ [spotFailEvent]) := by
  refine ⟨?_, ?_, ?_, ?_⟩
  · intro dir entries code
    unfold spotdlCloseResult
    by_cases hc : code = some 0
    · rw [if_pos hc, hc]
      simp only [eq_self_iff_true, true_and]
      rcases hf : entries.filter (fun f => jsEndsWith f (".mp3")) with _ | ⟨a, t⟩
      · simp only [hf]
        constructor
        · intro hcon
          exact absurd hcon (by simp)
        · rintro ⟨f, hfe, hfp⟩
          have hmem : f ∈ entries.filter (fun f => jsEndsWith f (".mp3")) :=
            List.mem_filter.mpr ⟨hfe, hfp⟩
          rw [hf] at hmem
          exact absurd hmem (List.not_mem_nil f)
      · simp only [hf]
        constructor
        · intro _
          have hmem : a ∈ entries.filter (fun f => jsEndsWith f (".mp3")) := by
            rw [hf]
            exact List.mem_cons_self a t
          have h2 := List.mem_filter.mp hmem
          exact ⟨a, h2.1, h2.2⟩
        · intro _
          rfl
    · rw [if_neg hc]
      simp [hc]
  · intro dir code
    unfold spotdlCloseResult
    split <;> rfl
  · intro env hm hs hf
    rw [runPOST_spot env hm hs, spotBranch_fail env hf]
  · intro env p hm hs hr hp
    rw [runPOST_spot env hm hs, spotBranch_missing env p hr hp]

/-- Witness for C7 at exit code 0 with one `.mp3` entry, at a
`readdirSync` failure, and at `envBoth`'s failing run. -/
theorem C7_witness :
    (spotdlCloseResult ("/t") (some ["a.mp3"]) (some 0)).isSome = true ∧
    spotdlCloseResult ("/t") none (some 0) = none ∧
    (runPOST envBoth).events = spotPre envBoth ++ [spotFailEvent] :=
  ⟨(C7_success_iff_exit0_and_file.1 ("/t") (["a.mp3"]) (some 0)).mpr
      ⟨rfl, "a.mp3", List.mem_singleton.mpr rfl, rfl⟩,
   C7_success_iff_exit0_and_file.2.1 ("/t") (some 0),
   C7_success_iff_exit0_and_file.2.2.1 envBoth rfl rfl rfl⟩

/-- Claim C8: under the timed event-loop model in which the
`setTimeout` handler registered at spawn runs at its delay, every
strategy's promise resolves no later than its configured budget —
300000 ms for `downloadWithSpotDl` and `downloadWithYtDlp`, 30000 ms for
`searchYouTube` — and when neither the `close` nor the `error` event has
fired within the budget, the resolution happens exactly when the timer
fires, i.e. at the moment the subprocess is killed and the failure value
is resolved. -/
theorem C8_resolve_within_budget (r : TimedRun) :
    resolveAt spotdlTimeoutMs r ≤ 300000 ∧
    resolveAt searchTimeoutMs r ≤ 30000 ∧
    resolveAt ytdlpTimeoutMs r ≤ 300000 ∧
    (∀ budget : ℕ, (∀ u, r.closeAt = some u → budget < u) →
       (∀ u, r.errorAt = some u → budget < u) → resolveAt budget r = budget) := by
  refine ⟨min_le_right _ _, min_le_right _ _, min_le_right _ _, ?_⟩
  intro budget hc he
  unfold resolveAt
  rcases hcc : r.closeAt with _ | u <;> rcases hee : r.errorAt with _ | w <;>
    simp only [Option.getD_none, Option.getD_some]
  · omega
  · have hw := he w hee
    omega
  · have hu := hc u hcc
    omega
  · have hu := hc u hcc
    have hw := he w hee
    omega

/-- Witness for C8 at a run whose subprocess never settles on its own. -/
theorem C8_resolve_witness :
    resolveAt spotdlTimeoutMs { closeAt := none, errorAt := none } = spotdlTimeoutMs :=
  (C8_resolve_within_budget { closeAt := none, errorAt := none }).2.2.2 spotdlTimeoutMs
    (fun _ h => Option.noConfusion h) (fun _ h => Option.noConfusion h)

/-- Claim C9: the filename carried by the terminal `complete` event is
the string `` `${artist} - ${title}` `` with every character outside
`[a-zA-Z0-9\s-]` removed and the result truncated to 100 characters,
followed by ".mp3"; hence it is at most 104 characters long and contains
only characters of that safe class plus the dot. -/
theorem C9_complete_filename (env : Env) (e : Event)
    (he : e ∈ (runPOST env).events) (hc : e.stage = Stage.complete) :
    e.filename = some (sanitizedTitle env.artist env.title ++ (".mp3")) ∧
    (sanitizedTitle env.artist env.title ++ (".mp3")).length ≤ 104 ∧
    (∀ c ∈ (sanitizedTitle env.artist env.title ++ (".mp3")).toList,
        isSafeChar c = true ∨ c = ('.' : Char)) := by
  obtain ⟨pre, t, hev, hpre, hterm⟩ := runPOST_shape env
  rw [hev] at he
  rcases List.mem_append.mp he with h | h
  · exact absurd (isTerminal_of_complete e hc) (by simp [(hpre e h).1])
  · rw [List.mem_singleton.mp h] at hc ⊢
    exact ⟨hterm.2.2.2 hc, sanitizedFilename_length env.artist env.title,
      sanitizedFilename_chars env.artist env.title⟩

/-- Witness for C9 at `envOk`'s successful run: the complete event's
filename is `Artist - Song.mp3`. -/
theorem C9_complete_filename_witness :
    (doneEvent envOk.spotData (sanitizedTitle envOk.artist envOk.title ++ (".mp3"))).filename =
      some (sanitizedTitle envOk.artist envOk.title ++ (".mp3")) ∧
    (sanitizedTitle envOk.artist envOk.title ++ (".mp3")).length ≤ 104 ∧
    (∀ c ∈ (sanitizedTitle envOk.artist envOk.title ++ (".mp3")).toList,
        isSafeChar c = true ∨ c = ('.' : Char)) :=
  C9_complete_filename envOk
    (doneEvent envOk.spotData (sanitizedTitle envOk.artist envOk.title ++ (".mp3")))
    (by rw [(runPOST_spot envOk rfl rfl).trans
              (spotBranch_success envOk ("/tmp/d/out.mp3") rfl
                (List.mem_singleton.mpr rfl) rfl)]
        simp)
    rfl

/-- Claim C10: at most one strategy is ever executed per request: when the
spotdl probe succeeds, `searchYouTube` and `downloadWithYtDlp` are never
invoked, even when the spotdl download fails. -/
theorem C10_single_strategy (env : Env) (hs : env.useSpotDl = true) :
    (runPOST env).calls.search = [] ∧ (runPOST env).calls.ytdlp = [] := by
  by_cases hm : env.mkdirOk = true
  · rw [runPOST_spot env hm hs]
    exact ⟨rfl, rfl⟩
  · rw [runPOST_mkdirFail env (bool_eq_false_of_not_true hm)]
    exact ⟨rfl, rfl⟩

/-- Witness for C10 at `envBoth`, where spotdl fails with yt-dlp
available. -/
theorem C10_single_strategy_witness :
    (runPOST envBoth).calls.search = [] ∧ (runPOST envBoth).calls.ytdlp = [] :=
  C10_single_strategy envBoth rfl

end SpotDL
